import Mathlib

/-!
Shallow embedding of the kidney-backend CKD prediction service:
`server.js`, `src/services/mlComparisonService.js`, and the unnamed
server variants containing `handleModelPrediction`,
`generateMockPrediction` and `sendPredictionResponse`.

Modelling conventions:
* numeric JSON values are rationals;
* one remote `axios.post` to a model's service is modelled by an
  environment `outcomes : String → CallOutcome` mapping a model name to
  `some data` (the promise resolves with parsed body `data`) or `none`
  (the promise rejects: transport error, timeout, non-2xx);
* JS `x || d` on string and numeric fields is `orDefaultStr` /
  `orDefaultQ` (`undefined`, `''` and `0` are falsy);
* functions that issue requests are instrumented to also return the
  list of requests they made, so that call-ordering and timeout
  properties can be stated.
-/

/-- JS `s || d` for an optional string field (missing and `''` are falsy). -/
def orDefaultStr (v : Option String) (d : String) : String :=
  match v with
  | none => d
  | some s => if s = "" then d else s

/-- JS `x || d` for an optional numeric field (missing and `0` are falsy). -/
def orDefaultQ (v : Option ℚ) (d : ℚ) : ℚ :=
  match v with
  | none => d
  | some q => if q = 0 then d else q

/-- Parsed JSON body of a remote model service response; each field may be
absent (`serviceResponse.data.prediction` etc.). -/
structure RemoteData where
  prediction : Option String
  probability : Option ℚ
  confidence : Option ℚ
deriving DecidableEq, Repr

/-- `some data`: the `axios.post` promise resolved with body `data`;
`none`: it rejected (transport error, timeout, non-2xx status). -/
abbrev CallOutcome := Option RemoteData

/-- `ML_MODELS` from `src/services/mlComparisonService.js`: model name to
service URL, in JS object-literal insertion order. -/
def ML_MODELS : List (String × String) :=
  [("logistic", "https://logistic-service-djty.onrender.com/predict"),
   ("randomforest", "https://randomforest-service.onrender.com/predict"),
   ("xgboost", "https://xgboost-service-ddal.onrender.com/predict"),
   ("svm", "https://svm-service.onrender.com/predict"),
   ("neuralnetwork", "https://neuralnetwork-service.onrender.com/predict")]

/-- `let bestModel = 'xgboost'` from `mlComparisonService.js`. -/
def bestModel : String := "xgboost"

/-- `modelPerformance` from `mlComparisonService.js` (also duplicated
verbatim in `server.js`), in insertion order. -/
def modelPerformance : List (String × ℚ) :=
  [("xgboost", mkRat 99 100),
   ("randomforest", mkRat 98 100),
   ("logistic", mkRat 95 100),
   ("svm", mkRat 94 100),
   ("neuralnetwork", mkRat 96 100)]

/-- `modelPerformance[m] || 0` (all stored accuracies are nonzero, so the
JS truthiness test coincides with key presence). -/
def perfOf (m : String) : ℚ := (modelPerformance.lookup m).getD 0

/-- Insert `x` into `l` before the first element `y` with `r x y`;
auxiliary step of the stable sort modelling `Array.prototype.sort`. -/
def insertLe {α : Type} (r : α → α → Bool) (x : α) : List α → List α
  | [] => [x]
  | y :: ys => if r x y then x :: y :: ys else y :: insertLe r x ys

/-- Stable insertion sort: models JS `Array.prototype.sort(cmp)` (stable
per the ECMAScript spec); `r a b = true` means "`a` may stay before `b`",
i.e. `cmp(a, b) <= 0`. -/
def sortBy {α : Type} (r : α → α → Bool) : List α → List α
  | [] => []
  | x :: xs => insertLe r x (sortBy r xs)

/-- `Object.keys(modelPerformance).sort((a, b) => modelPerformance[b] -
modelPerformance[a])` from `getBestModelPrediction`: model names in
descending accuracy order. -/
def fallbackModels : List String :=
  sortBy (fun a b => decide (perfOf b ≤ perfOf a)) (modelPerformance.map Prod.fst)

/-- Value returned by `getBestModelPrediction`.  The JS success object has
no `fallback` key on the direct best-model path (`undefined`, falsy),
modelled as `fallback := false`. -/
structure PredictionOutcome where
  model : String
  prediction : String
  probability : ℚ
  confidence : ℚ
  modelAccuracy : ℚ
  fallback : Bool
deriving DecidableEq, Repr

/-- The object `getBestModelPrediction` builds from a successful response
of model `m` (`response.data.prediction || 'Unknown'`, etc.). -/
def outcomeOfSuccess (m : String) (data : RemoteData) (fb : Bool) : PredictionOutcome :=
  { model := m.toUpper
    prediction := orDefaultStr data.prediction "Unknown"
    probability := orDefaultQ data.probability 0
    confidence := orDefaultQ data.confidence 0
    modelAccuracy := perfOf m
    fallback := fb }

/-- The `for (const model of fallbackModels)` loop of
`getBestModelPrediction`, instrumented with the list of models actually
called: skips `bestModel`, returns on first success with
`fallback: true`, and throws `'All model services unavailable'` when the
list is exhausted. -/
def tryFallbacksT (outcomes : String → CallOutcome) :
    List String → List String × Except String PredictionOutcome
  | [] => ([], Except.error "All model services unavailable")
  | m :: rest =>
    if m = bestModel then tryFallbacksT outcomes rest
    else
      match outcomes m with
      | some data => ([m], Except.ok (outcomeOfSuccess m data true))
      | none =>
        let t := tryFallbacksT outcomes rest
        (m :: t.1, t.2)

/-- `getBestModelPrediction` from `mlComparisonService.js`, instrumented
with the list of models called: try `bestModel` first; on rejection
cascade through `fallbackModels`. -/
def getBestModelPredictionT (outcomes : String → CallOutcome) :
    List String × Except String PredictionOutcome :=
  match outcomes bestModel with
  | some data => ([bestModel], Except.ok (outcomeOfSuccess bestModel data false))
  | none =>
    let t := tryFallbacksT outcomes fallbackModels
    (bestModel :: t.1, t.2)

/-- The value/throw behaviour of `getBestModelPrediction`. -/
def getBestModelPrediction (outcomes : String → CallOutcome) :
    Except String PredictionOutcome :=
  (getBestModelPredictionT outcomes).2

/-- The models `getBestModelPrediction` actually calls, in call order. -/
def dispatchAttempts (outcomes : String → CallOutcome) : List String :=
  (getBestModelPredictionT outcomes).1

/-- An HTTP request as issued through axios; `timeoutMs = none` models a
call made with no `timeout` option in the axios config. -/
structure AxiosRequest where
  url : String
  timeoutMs : Option ℕ
deriving DecidableEq, Repr

/-- The requests the dispatcher issues: `axios.post(ML_MODELS[model],
patientData)` — no config object, hence no timeout. -/
def dispatchRequests (outcomes : String → CallOutcome) : List AxiosRequest :=
  (dispatchAttempts outcomes).map
    (fun m => { url := (ML_MODELS.lookup m).getD "", timeoutMs := none })

/-- One slot of the `compareAllModels` report.  A success carries
`prediction`/`probability` and `status: 'success'`; a failure carries
`error: "Service down"` and `status: 'failed'`; both carry the
capitalized model name and `accuracy`. -/
structure ComparisonEntry where
  model : String
  prediction : Option String
  probability : Option ℚ
  error : Option String
  accuracy : ℚ
  status : String
deriving DecidableEq, Repr

/-- JS `name.charAt(0).toUpperCase() + name.slice(1)` (on `''` both parts
are `''`). -/
def capitalize (s : String) : String :=
  match s.data with
  | [] => ""
  | c :: cs => String.mk (c.toUpper :: cs)

/-- The entry the `compareAllModels` promise for model `name` settles
with: the `try` branch on a resolved call, the `catch` branch on a
rejected one (every promise fulfills, so `Promise.allSettled` keeps all
of them). -/
def entryFor (outcomes : String → CallOutcome) (name : String) : ComparisonEntry :=
  match outcomes name with
  | some data =>
    { model := capitalize name
      prediction := some (orDefaultStr data.prediction "Unknown")
      probability := some (orDefaultQ data.probability 0)
      error := none
      accuracy := perfOf name
      status := "success" }
  | none =>
    { model := capitalize name
      prediction := none
      probability := none
      error := some "Service down"
      accuracy := perfOf name
      status := "failed" }

/-- The `results` array before the final sort: one settled entry per
`Object.entries` pair of the registry, in registry order. -/
def compareEntries (registry : List (String × String))
    (outcomes : String → CallOutcome) : List ComparisonEntry :=
  registry.map (fun nu => entryFor outcomes nu.1)

/-- Comparator of the final sort: `(a, b) => (b.accuracy || 0) -
(a.accuracy || 0)` (the `accuracy` field is always set at construction). -/
def cmpAcc (a b : ComparisonEntry) : Bool := decide (b.accuracy ≤ a.accuracy)

/-- `compareAllModels` generalized over the registry it iterates. -/
def compareAllModelsGen (registry : List (String × String))
    (outcomes : String → CallOutcome) : List ComparisonEntry :=
  sortBy cmpAcc (compareEntries registry outcomes)

/-- `compareAllModels` from `mlComparisonService.js`: settle one call per
registered model, then `results.sort((a, b) => b.accuracy - a.accuracy)`. -/
def compareAllModels (outcomes : String → CallOutcome) : List ComparisonEntry :=
  compareAllModelsGen ML_MODELS outcomes

/-- Patient feature record: the clinical fields `generateMockPrediction`
reads; a missing field (`undefined`) is `none` and is replaced by the
neutral default via `||`. -/
structure FeatureRecord where
  age : Option ℚ
  bp : Option ℚ
  sc : Option ℚ
  bu : Option ℚ
  bgr : Option ℚ
  sg : Option ℚ
  al : Option ℚ
  su : Option ℚ
deriving DecidableEq, Repr

/-- Normalized prediction result `{prediction, probability, confidence}`.
In the JS mock generator `confidence` is the string
`(finalProbability * 100).toFixed(1)`; the numeric value is modelled and
the decimal formatting is not. -/
structure PredResult where
  prediction : String
  probability : ℚ
  confidence : ℚ
deriving DecidableEq, Repr

/-- The risk accumulator of `generateMockPrediction` (unnamed server
file, lines 454-500) before the `Math.min(riskScore, 95)` cap: one fixed
weight per clinical threshold rule crossed, fields defaulted by `||`. -/
def rawRiskScore (p : FeatureRecord) : ℚ :=
  let age := orDefaultQ p.age 50
  let bp := orDefaultQ p.bp 120
  let sc := orDefaultQ p.sc 1
  let bu := orDefaultQ p.bu 30
  let bgr := orDefaultQ p.bgr 100
  let sg := orDefaultQ p.sg (mkRat 1020 1000)
  let al := orDefaultQ p.al 0
  let su := orDefaultQ p.su 0
  (if age > 60 then 15 else 0) +
  (if bp > 140 then 10 else 0) +
  (if sc > mkRat 13 10 then 25 else 0) +
  (if bu > 40 then 15 else 0) +
  (if bgr > 126 then 10 else 0) +
  (if sg < mkRat 1010 1000 then 10 else 0) +
  (if al > 2 then 10 else 0) +
  (if su > 1 then 5 else 0)

/-- `riskScore = Math.min(riskScore, 95)`. -/
def cappedRiskScore (p : FeatureRecord) : ℚ := min (rawRiskScore p) 95

/-- `modelAdjustments` of `generateMockPrediction`: fixed per-model
probability offsets. -/
def modelAdjustments : List (String × ℚ) :=
  [("xgboost", mkRat 2 100),
   ("randomforest", mkRat 1 100),
   ("neuralnetwork", mkRat 15 1000),
   ("svm", 0),
   ("logistic", mkRat (-1) 100)]

/-- `modelAdjustments[model] || 0` (the only falsy stored value is
`svm`'s `0.0`, for which `|| 0` gives `0` as well). -/
def adjOf (model : String) : ℚ := (modelAdjustments.lookup model).getD 0

/-- `generateMockPrediction(patientData, model)`: the Local Risk
Estimator.  Pure: threshold rules, cap at 95, per-model offset, clamp to
[0.05, 0.95], label positive iff the final probability exceeds 0.5. -/
def generateMockPrediction (p : FeatureRecord) (model : String) : PredResult :=
  let riskScore := cappedRiskScore p
  let probability := riskScore / 100 + adjOf model
  let finalProbability := max (mkRat 5 100) (min (mkRat 95 100) probability)
  { prediction := if finalProbability > mkRat 1 2 then "CKD" else "No CKD"
    probability := finalProbability
    confidence := finalProbability * 100 }

/-- `modelPerformance` of `handleModelPrediction` in the unnamed server
file (a different table from the one in `mlComparisonService.js`). -/
def modelPerformance2 : List (String × ℚ) :=
  [("xgboost", mkRat 987 1000),
   ("randomforest", mkRat 962 1000),
   ("neuralnetwork", mkRat 958 1000),
   ("svm", mkRat 941 1000),
   ("logistic", mkRat 925 1000)]

/-- `modelServiceMap`: duplicated verbatim in `server.js` and in the
unnamed server file; identical content to `ML_MODELS`. -/
def modelServiceMap : List (String × String) :=
  [("logistic", "https://logistic-service-djty.onrender.com/predict"),
   ("randomforest", "https://randomforest-service.onrender.com/predict"),
   ("xgboost", "https://xgboost-service-ddal.onrender.com/predict"),
   ("svm", "https://svm-service.onrender.com/predict"),
   ("neuralnetwork", "https://neuralnetwork-service.onrender.com/predict")]

/-- `validModels` from the `/:model/predict` handlers. -/
def validModels : List String :=
  ["xgboost", "randomforest", "svm", "logistic", "neuralnetwork"]

/-- Result object of `handleModelPrediction` in the unnamed server file. -/
structure HandleModelResult where
  predictionResult : PredResult
  modelAccuracy : ℚ
  model : String
deriving DecidableEq, Repr

/-- Field defaulting of a resolved service response inside
`handleModelPrediction`: `prediction || 'Unknown'`,
`probability || 0.5`, `confidence || 0`. -/
def normalizeRemote2 (data : RemoteData) : PredResult :=
  { prediction := orDefaultStr data.prediction "Unknown"
    probability := orDefaultQ data.probability (mkRat 1 2)
    confidence := orDefaultQ data.confidence 0 }

/-- `handleModelPrediction(model, patientData)` from the unnamed server
file (lines 390-451), instrumented with the requests it issues: the
remote call carries `{ timeout: 10000 }`; on rejection (or when the
model has no service URL) it falls back to `generateMockPrediction`. -/
def handleModelPredictionT (model : String) (p : FeatureRecord)
    (remote : CallOutcome) : List AxiosRequest × HandleModelResult :=
  let modelAccuracy := (modelPerformance2.lookup model).getD (mkRat 90 100)
  match modelServiceMap.lookup model with
  | some url =>
    match remote with
    | some data =>
      ([{ url := url, timeoutMs := some 10000 }],
       { predictionResult := normalizeRemote2 data, modelAccuracy := modelAccuracy, model := model })
    | none =>
      ([{ url := url, timeoutMs := some 10000 }],
       { predictionResult := generateMockPrediction p model, modelAccuracy := modelAccuracy, model := model })
  | none =>
    ([], { predictionResult := generateMockPrediction p model, modelAccuracy := modelAccuracy, model := model })

/-- JSON body (plus HTTP status) of a route handler response.  Fields
not present in a given JS response object are `none`.  The `confidence`
field and the `Confidence: ...%` suffix of the result message use JS
float formatting (`toFixed`) and are not modelled. -/
structure HttpResponse where
  status : ℕ
  success : Bool
  message : Option String
  result : Option String
  risk_score : Option ℚ
  recommendation : Option String
  note : Option String
  errorMsg : Option String
deriving DecidableEq, Repr

/-- `sendPredictionResponse(res, {predictionResult, modelAccuracy,
model})` from the unnamed server file (lines 594-647): computes the risk
fields, then tries `record.save()`; on a database error it still replies
`success: true` with `note: "Prediction saved locally only"`. -/
def sendPredictionResponse (r : HandleModelResult) (saveOk : Bool) : HttpResponse :=
  let riskScore := r.predictionResult.probability * 100
  let hasCKD := r.predictionResult.probability > mkRat 1 2
  let riskLevel := if hasCKD then "HIGH RISK: CKD Detected" else "LOW RISK: No CKD"
  let recommendation :=
    if hasCKD then "High risk detected. Consult nephrologist immediately."
    else "Low risk. Continue annual checkups."
  if saveOk then
    { status := 200, success := true, message := none
      result := some riskLevel, risk_score := some riskScore
      recommendation := some recommendation, note := none, errorMsg := none }
  else
    { status := 200, success := true, message := none
      result := some riskLevel, risk_score := some riskScore
      recommendation := some recommendation
      note := some "Prediction saved locally only", errorMsg := none }

/-- Field defaulting in `server.js` (`/:model/predict`):
`prediction || 'Unknown'`, `probability || 0`, `confidence || 0`. -/
def normalizeRemote (data : RemoteData) : PredResult :=
  { prediction := orDefaultStr data.prediction "Unknown"
    probability := orDefaultQ data.probability 0
    confidence := orDefaultQ data.confidence 0 }

/-- The success response of `server.js`'s `/:model/predict`:
`riskResult` and `recommendation` both test `prediction === "CKD"`. -/
def responseOfResult (result : PredResult) : HttpResponse :=
  { status := 200, success := true, message := none
    result := some (if result.prediction = "CKD" then "HIGH RISK: CKD Detected"
      else "LOW RISK: No CKD")
    risk_score := some (result.probability * 100)
    recommendation := some (if result.prediction = "CKD"
      then "High risk detected. Consult nephrologist immediately."
      else "Low risk. Continue annual checkups.")
    note := none, errorMsg := none }

/-- The `catch` response of `server.js`'s `/:model/predict`:
`500 { success: false, message: "Prediction failed", error: ... }`. -/
def error500 (msg : String) : HttpResponse :=
  { status := 500, success := false, message := some "Prediction failed"
    result := none, risk_score := none, recommendation := none
    note := none, errorMsg := some msg }

/-- The `400` response of the `/:model/predict` handlers for an
identifier outside `validModels`. -/
def invalidModelResponse : HttpResponse :=
  { status := 400, success := false
    message := some ("Invalid model. Choose from: " ++ String.intercalate ", " validModels)
    result := none, risk_score := none, recommendation := none
    note := none, errorMsg := none }

/-- Requests issued by `getBestModelPrediction` for a given list of
attempted models: `axios.post(ML_MODELS[model], patientData)` with no
config object, hence no timeout. -/
def requestsOf (attempted : List String) : List AxiosRequest :=
  attempted.map (fun m => { url := (ML_MODELS.lookup m).getD "", timeoutMs := none })

/-- `server.js`'s `app.post('/:model/predict', ...)` handler (lines
48-141), instrumented with the requests it issues.  Validation happens
before any network call; `record.save()` happens before the success
response, inside the same `try`, so a rejected save reaches the `catch`
and yields the 500 response.  When the model has a service URL the call
is `axios.post(url, patientData)` with no timeout; the
`getBestModelPrediction` branch is only reachable for a valid model
missing from `modelServiceMap` (no such model exists). -/
def serverPredictHandler (model : String) (outcomes : String → CallOutcome)
    (saveOk : Bool) : List AxiosRequest × HttpResponse :=
  if model ∈ validModels then
    match modelServiceMap.lookup model with
    | some url =>
      match outcomes model with
      | some data =>
        if saveOk then ([{ url := url, timeoutMs := none }], responseOfResult (normalizeRemote data))
        else ([{ url := url, timeoutMs := none }], error500 "save failed")
      | none => ([{ url := url, timeoutMs := none }], error500 "request failed")
    | none =>
      match getBestModelPredictionT outcomes with
      | (t, Except.ok o) =>
        if saveOk then
          (requestsOf t, responseOfResult
            { prediction := o.prediction, probability := o.probability
              confidence := o.probability * 100 })
        else (requestsOf t, error500 "save failed")
      | (t, Except.error e) => (requestsOf t, error500 e)
  else ([], invalidModelResponse)

/-- The generic `app.post('/:model/predict', ...)` route of the unnamed
server file (lines 569-591): lowercases the path parameter, validates it
before any call, then runs `handleModelPrediction` followed by
`sendPredictionResponse`. -/
def genericPredictHandler (model : String) (p : FeatureRecord)
    (remote : CallOutcome) (saveOk : Bool) : List AxiosRequest × HttpResponse :=
  let m := model.toLower
  if m ∈ validModels then
    let r := handleModelPredictionT m p remote
    (r.1, sendPredictionResponse r.2 saveOk)
  else ([], invalidModelResponse)

/-- Feature record of spec property §8 / claim C7 (high-risk profile). -/
def highRiskRecord : FeatureRecord :=
  { age := some 70, bp := some 150, sc := some (mkRat 3 2), bu := some 50
    bgr := some 130, sg := some (mkRat 1005 1000), al := some 3, su := some 2 }

/-- Feature record of spec property §8 / claim C8 (all fields at the
neutral defaults; the remaining fields absent, hence defaulted). -/
def neutralRecord : FeatureRecord :=
  { age := some 50, bp := some 120, sc := some 1, bu := some 30
    bgr := some 100, sg := none, al := none, su := none }

/-- Environment where every remote call fails (simulated transport
error on each attempt). -/
def allFail : String → CallOutcome := fun _ => none

/-- Remote body used by the C3 witness. -/
def ckdData : RemoteData :=
  { prediction := some "CKD", probability := some (mkRat 4 5), confidence := some 80 }

/-- Environment for the C3 witness: the best model's service is down,
the second-ranked one answers. -/
def secondUp : String → CallOutcome :=
  fun m => if m = "randomforest" then some ckdData else none

/-- Remote body lacking the `prediction` field (malformed payload for
C10) but carrying a high probability. -/
def noLabelData : RemoteData :=
  { prediction := none, probability := some (mkRat 9 10), confidence := none }

/-- Environment where every service resolves with `noLabelData`. -/
def allNoLabel : String → CallOutcome := fun _ => some noLabelData

/-- Environment where every service resolves with `ckdData`. -/
def allCkd : String → CallOutcome := fun _ => some ckdData

/-! ## Helper lemmas about the stable sort -/

theorem length_insertLe {α : Type} (r : α → α → Bool) (x : α) (l : List α) :
    (insertLe r x l).length = l.length + 1 := by
  induction l with
  | nil => rfl
  | cons a as ih =>
    simp only [insertLe]
    by_cases h : r x a
    · simp [h]
    · simp [h, ih]

theorem length_sortBy {α : Type} (r : α → α → Bool) (l : List α) :
    (sortBy r l).length = l.length := by
  induction l with
  | nil => rfl
  | cons a as ih => simp [sortBy, length_insertLe, ih]

theorem mem_insertLe {α : Type} (r : α → α → Bool) (x y : α) (l : List α)
    (h : y ∈ insertLe r x l) : y = x ∨ y ∈ l := by
  induction l with
  | nil =>
    simp only [insertLe, List.mem_singleton] at h
    exact Or.inl h
  | cons a as ih =>
    simp only [insertLe] at h
    by_cases hr : r x a
    · rw [if_pos hr, List.mem_cons] at h
      rcases h with h | h
      · exact Or.inl h
      · exact Or.inr h
    · rw [if_neg hr, List.mem_cons] at h
      rcases h with h | h
      · exact Or.inr (h ▸ List.mem_cons_self a as)
      · rcases ih h with h | h
        · exact Or.inl h
        · exact Or.inr (List.mem_cons_of_mem a h)

theorem pairwise_insertLe {α : Type} (r : α → α → Bool)
    (total : ∀ a b, r a b = true ∨ r b a = true)
    (htrans : ∀ a b c, r a b = true → r b c = true → r a c = true)
    (x : α) (l : List α) (h : l.Pairwise (fun a b => r a b = true)) :
    (insertLe r x l).Pairwise (fun a b => r a b = true) := by
  induction l with
  | nil => simp [insertLe]
  | cons a as ih =>
    rw [List.pairwise_cons] at h
    simp only [insertLe]
    by_cases hr : r x a
    · rw [if_pos hr, List.pairwise_cons]
      refine ⟨fun b hb => ?_, List.pairwise_cons.mpr h⟩
      rcases List.mem_cons.mp hb with rfl | hb
      · exact hr
      · exact htrans x a b hr (h.1 b hb)
    · rw [if_neg hr, List.pairwise_cons]
      refine ⟨fun b hb => ?_, ih h.2⟩
      rcases mem_insertLe r x b as hb with rfl | hb
      · rcases total b a with h1 | h1
        · exact absurd h1 hr
        · exact h1
      · exact h.1 b hb

theorem pairwise_sortBy {α : Type} (r : α → α → Bool)
    (total : ∀ a b, r a b = true ∨ r b a = true)
    (htrans : ∀ a b c, r a b = true → r b c = true → r a c = true)
    (l : List α) : (sortBy r l).Pairwise (fun a b => r a b = true) := by
  induction l with
  | nil => simp [sortBy]
  | cons a as ih => exact pairwise_insertLe r total htrans a (sortBy r as) ih

theorem perm_insertLe {α : Type} (r : α → α → Bool) (x : α) (l : List α) :
    (insertLe r x l).Perm (x :: l) := by
  induction l with
  | nil => exact List.Perm.refl _
  | cons a as ih =>
    simp only [insertLe]
    by_cases hr : r x a
    · rw [if_pos hr]
    · rw [if_neg hr]
      exact (ih.cons a).trans (List.Perm.swap x a as)

theorem perm_sortBy {α : Type} (r : α → α → Bool) (l : List α) :
    (sortBy r l).Perm l := by
  induction l with
  | nil => exact List.Perm.refl _
  | cons a as ih => exact (perm_insertLe r a (sortBy r as)).trans (ih.cons a)

/-! ## Helper lemmas about the dispatcher cascade -/

theorem tryFallbacks_trace_sublist (outcomes : String → CallOutcome) (l : List String) :
    (tryFallbacksT outcomes l).1.Sublist l := by
  induction l with
  | nil => simp [tryFallbacksT]
  | cons m rest ih =>
    by_cases h : m = bestModel
    · simp only [tryFallbacksT, if_pos h]
      exact ih.cons m
    · cases ho : outcomes m with
      | some d =>
        simp only [tryFallbacksT, if_neg h, ho]
        exact (List.nil_sublist rest).cons₂ m
      | none =>
        simp only [tryFallbacksT, if_neg h, ho]
        exact ih.cons₂ m

theorem tryFallbacks_trace_ne_best (outcomes : String → CallOutcome) (l : List String)
    (m : String) (hm : m ∈ (tryFallbacksT outcomes l).1) : m ≠ bestModel := by
  induction l with
  | nil => simp [tryFallbacksT] at hm
  | cons a rest ih =>
    by_cases h : a = bestModel
    · rw [show tryFallbacksT outcomes (a :: rest) = tryFallbacksT outcomes rest by
        simp [tryFallbacksT, if_pos h]] at hm
      exact ih hm
    · cases ho : outcomes a with
      | some d =>
        simp only [tryFallbacksT, if_neg h, ho, List.mem_singleton] at hm
        exact hm ▸ h
      | none =>
        simp only [tryFallbacksT, if_neg h, ho, List.mem_cons] at hm
        rcases hm with hm | hm
        · exact hm ▸ h
        · exact ih hm

theorem tryFallbacks_success (outcomes : String → CallOutcome) (l : List String)
    (hsort : l.Pairwise (fun a b => perfOf b ≤ perfOf a)) (m : String)
    (hm : m ∈ (tryFallbacksT outcomes l).1)
    (hs : (outcomes m).isSome = true) :
    (∀ m' ∈ (tryFallbacksT outcomes l).1, perfOf m ≤ perfOf m') ∧
    ∃ d, outcomes m = some d ∧
      (tryFallbacksT outcomes l).2 = Except.ok (outcomeOfSuccess m d true) := by
  induction l with
  | nil => simp [tryFallbacksT] at hm
  | cons a rest ih =>
    rw [List.pairwise_cons] at hsort
    by_cases h : a = bestModel
    · rw [show tryFallbacksT outcomes (a :: rest) = tryFallbacksT outcomes rest by
        simp [tryFallbacksT, if_pos h]] at hm ⊢
      exact ih hsort.2 hm
    · cases ho : outcomes a with
      | some d =>
        simp only [tryFallbacksT, if_neg h, ho, List.mem_singleton] at hm ⊢
        subst hm
        exact ⟨fun m' hm' => hm' ▸ le_refl _, d, ho, rfl⟩
      | none =>
        simp only [tryFallbacksT, if_neg h, ho, List.mem_cons] at hm ⊢
        have hma : m ≠ a := by
          rintro rfl
          rw [ho] at hs
          exact Bool.noConfusion hs
        have hm' : m ∈ (tryFallbacksT outcomes rest).1 := by
          rcases hm with hm | hm
          · exact absurd hm hma
          · exact hm
        have hrest := ih hsort.2 hm'
        refine ⟨fun x hx => ?_, hrest.2⟩
        rcases hx with hx | hx
        · subst hx
          exact hsort.1 m ((tryFallbacks_trace_sublist outcomes rest).subset hm')
        · exact hrest.1 x hx

/-- Concrete facts about the ranked cascade list. -/
theorem fallbackModels_sorted :
    fallbackModels.Pairwise (fun a b => perfOf b ≤ perfOf a) := by decide

theorem fallbackModels_nodup : fallbackModels.Nodup := by decide

theorem perfOf_le_best : ∀ x ∈ fallbackModels, perfOf x ≤ perfOf bestModel := by decide

/-! ## Claim theorems -/

/-- C1, counterexample: with every remote call failing, the dispatcher
`getBestModelPrediction` does not return a successful outcome at all —
it throws `'All model services unavailable'`. -/
theorem dispatch_allFail_throws :
    getBestModelPrediction allFail = Except.error "All model services unavailable" := rfl

/-- C1, amended: when every remote call fails, `getBestModelPrediction`
raises the terminal error `'All model services unavailable'` instead of
consulting the Local Risk Estimator; the estimator-as-fallback behaviour
lives in `handleModelPrediction`, which on a failed remote call returns
`generateMockPrediction`'s synthesized result (and never throws). -/
theorem dispatch_allFail_error_handler_falls_back (outcomes : String → CallOutcome)
    (h : ∀ m, outcomes m = none) (p : FeatureRecord) (model : String) :
    getBestModelPrediction outcomes = Except.error "All model services unavailable" ∧
    (handleModelPredictionT model p none).2.predictionResult = generateMockPrediction p model := by
  constructor
  · have hlist : ∀ l, (tryFallbacksT outcomes l).2 =
        Except.error "All model services unavailable" := by
      intro l
      induction l with
      | nil => rfl
      | cons a rest ih =>
        by_cases ha : a = bestModel
        · simp [tryFallbacksT, if_pos ha, ih]
        · simp [tryFallbacksT, if_neg ha, h a, ih]
    simp [getBestModelPrediction, getBestModelPredictionT, h bestModel, hlist]
  · cases hl : modelServiceMap.lookup model with
    | some url => simp [handleModelPredictionT, hl]
    | none => simp [handleModelPredictionT, hl]

/-- C1, witness for the amended theorem. -/
theorem dispatch_allFail_error_handler_falls_back_witness :
    getBestModelPrediction allFail = Except.error "All model services unavailable" ∧
    (handleModelPredictionT "xgboost" neutralRecord none).2.predictionResult =
      generateMockPrediction neutralRecord "xgboost" :=
  dispatch_allFail_error_handler_falls_back allFail (fun _ => rfl) neutralRecord "xgboost"

/-- C2: for every feature record (environment of call outcomes) and
every registry of size ≥ 1, `compareAllModels` returns a report whose
length equals the registry size; every registered model — failed calls
included — occupies a slot in the report. -/
theorem compareAll_length_eq_registry (registry : List (String × String))
    (outcomes : String → CallOutcome) (hreg : 1 ≤ registry.length) :
    (compareAllModelsGen registry outcomes).length = registry.length ∧
    ∀ nu ∈ registry, entryFor outcomes nu.1 ∈ compareAllModelsGen registry outcomes := by
  constructor
  · rw [compareAllModelsGen, length_sortBy, compareEntries, List.length_map]
  · intro nu hnu
    have hmem : entryFor outcomes nu.1 ∈ compareEntries registry outcomes :=
      List.mem_map.mpr ⟨nu, hnu, rfl⟩
    exact ((perm_sortBy cmpAcc (compareEntries registry outcomes)).mem_iff).mpr hmem

/-- C2, witness: the real registry (size 5) with every call failing. -/
theorem compareAll_length_eq_registry_witness :
    1 ≤ ML_MODELS.length ∧
    ((compareAllModelsGen ML_MODELS allFail).length = ML_MODELS.length ∧
     ∀ nu ∈ ML_MODELS, entryFor allFail nu.1 ∈ compareAllModelsGen ML_MODELS allFail) :=
  ⟨by decide, compareAll_length_eq_registry ML_MODELS allFail (by decide)⟩

/-- C3: whenever an attempted model `m` succeeds, every model the
dispatcher attempted is ranked at least as high as `m` (so no
lower-ranked model is ever attempted once one has succeeded), and the
dispatcher returns `m`'s outcome immediately. -/
theorem dispatch_short_circuit (outcomes : String → CallOutcome) (m : String)
    (hmem : m ∈ dispatchAttempts outcomes) (hsucc : (outcomes m).isSome = true) :
    (∀ m' ∈ dispatchAttempts outcomes, perfOf m ≤ perfOf m') ∧
    ∃ d, outcomes m = some d ∧
      getBestModelPrediction outcomes = Except.ok (outcomeOfSuccess m d (!(m == bestModel))) := by
  cases ho : outcomes bestModel with
  | some d =>
    have ht : dispatchAttempts outcomes = [bestModel] := by
      simp [dispatchAttempts, getBestModelPredictionT, ho]
    rw [ht, List.mem_singleton] at hmem
    subst hmem
    constructor
    · intro m' hm'
      rw [ht, List.mem_singleton] at hm'
      subst hm'
      exact le_refl _
    · exact ⟨d, ho, by simp [getBestModelPrediction, getBestModelPredictionT, ho]⟩
  | none =>
    have ht : dispatchAttempts outcomes =
        bestModel :: (tryFallbacksT outcomes fallbackModels).1 := by
      simp [dispatchAttempts, getBestModelPredictionT, ho]
    have hres : getBestModelPrediction outcomes = (tryFallbacksT outcomes fallbackModels).2 := by
      simp [getBestModelPrediction, getBestModelPredictionT, ho]
    rw [ht, List.mem_cons] at hmem
    have hmt : m ∈ (tryFallbacksT outcomes fallbackModels).1 := by
      rcases hmem with hmem | hmem
      · subst hmem
        rw [ho] at hsucc
        exact Bool.noConfusion hsucc
      · exact hmem
    have key := tryFallbacks_success outcomes fallbackModels fallbackModels_sorted m hmt hsucc
    have hne : m ≠ bestModel := tryFallbacks_trace_ne_best outcomes fallbackModels m hmt
    constructor
    · intro m' hm'
      rw [ht, List.mem_cons] at hm'
      rcases hm' with rfl | hm'
      · exact perfOf_le_best m ((tryFallbacks_trace_sublist outcomes fallbackModels).subset hmt)
      · exact key.1 m' hm'
    · rcases key.2 with ⟨d, hd, hres2⟩
      refine ⟨d, hd, ?_⟩
      rw [hres, hres2, show (m == bestModel) = false from beq_eq_false_iff_ne.mpr hne,
        Bool.not_false]

/-- C3, witness: the best model's service is down, the second-ranked
model answers; the dispatcher attempted exactly those two. -/
theorem dispatch_short_circuit_witness :
    ("randomforest" ∈ dispatchAttempts secondUp) ∧
    ((secondUp "randomforest").isSome = true) ∧
    ((∀ m' ∈ dispatchAttempts secondUp, perfOf "randomforest" ≤ perfOf m') ∧
     ∃ d, secondUp "randomforest" = some d ∧
       getBestModelPrediction secondUp =
         Except.ok (outcomeOfSuccess "randomforest" d (!("randomforest" == bestModel)))) :=
  ⟨by decide, by decide, dispatch_short_circuit secondUp "randomforest" (by decide) (by decide)⟩

/-- C4, counterexample: the first remote call the dispatcher issues
(`axios.post(ML_MODELS[bestModel], patientData)`) carries no timeout
option at all, so it is not made with a fixed 10-second timeout. -/
theorem dispatch_first_call_without_timeout :
    (dispatchRequests allFail).head? =
      some { url := "https://xgboost-service-ddal.onrender.com/predict", timeoutMs := none } ∧
    (none : Option ℕ) ≠ some 10000 := ⟨rfl, by decide⟩

/-- C4, amended: the fixed 10000 ms per-call timeout is passed on every
remote call issued by `handleModelPrediction`; the dispatcher
(`getBestModelPrediction`) issues its calls with no timeout option.  A
failed or timed-out call is never retried on the same model: the
dispatcher attempts each model at most once. -/
theorem timeout_fixed_only_in_handler :
    (∀ model p remote r, r ∈ (handleModelPredictionT model p remote).1 →
      r.timeoutMs = some 10000) ∧
    (∀ outcomes r, r ∈ dispatchRequests outcomes → r.timeoutMs = none) ∧
    (∀ outcomes, (dispatchAttempts outcomes).Nodup) := by
  refine ⟨?_, ?_, ?_⟩
  · intro model p remote r hr
    cases hl : modelServiceMap.lookup model with
    | some url =>
      cases remote with
      | some data =>
        simp only [handleModelPredictionT, hl, List.mem_singleton] at hr
        rw [hr]
      | none =>
        simp only [handleModelPredictionT, hl, List.mem_singleton] at hr
        rw [hr]
    | none =>
      simp [handleModelPredictionT, hl] at hr
  · intro outcomes r hr
    rcases List.mem_map.mp hr with ⟨m, _, rfl⟩
    rfl
  · intro outcomes
    cases ho : outcomes bestModel with
    | some d =>
      have ht : dispatchAttempts outcomes = [bestModel] := by
        simp [dispatchAttempts, getBestModelPredictionT, ho]
      rw [ht]
      exact List.nodup_singleton bestModel
    | none =>
      have ht : dispatchAttempts outcomes =
          bestModel :: (tryFallbacksT outcomes fallbackModels).1 := by
        simp [dispatchAttempts, getBestModelPredictionT, ho]
      rw [ht, List.nodup_cons]
      refine ⟨fun hmem => ?_, ?_⟩
      · exact tryFallbacks_trace_ne_best outcomes fallbackModels bestModel hmem rfl
      · exact (tryFallbacks_trace_sublist outcomes fallbackModels).nodup fallbackModels_nodup

/-- C4, witness for the amended theorem. -/
theorem timeout_fixed_only_in_handler_witness :
    (({ url := "https://xgboost-service-ddal.onrender.com/predict",
        timeoutMs := some 10000 } : AxiosRequest).timeoutMs = some 10000) ∧
    (dispatchAttempts allFail).Nodup :=
  ⟨timeout_fixed_only_in_handler.1 "xgboost" neutralRecord none _ (by decide),
   timeout_fixed_only_in_handler.2.2 allFail⟩

/-- C5, counterexample: in `server.js`'s `/:model/predict` handler a
successfully computed prediction is discarded when `record.save()`
rejects — the route answers `500 Prediction failed`, not the successful
prediction. -/
theorem server_save_failure_fails_response :
    (serverPredictHandler "xgboost" allCkd false).2.status = 500 ∧
    (serverPredictHandler "xgboost" allCkd false).2.success = false ∧
    (serverPredictHandler "xgboost" allCkd false).2.message = some "Prediction failed" :=
  ⟨rfl, rfl, rfl⟩

/-- C5, amended: persistence failure is non-fatal only in the unnamed
server file's `sendPredictionResponse`, which still replies 200
`success: true` with the same risk result, annotated
`"Prediction saved locally only"`; in `server.js`'s `/:model/predict`
handler a rejected `record.save()` fails the whole request with 500. -/
theorem persistence_failure_nonfatal_only_in_send :
    (∀ r : HandleModelResult,
      (sendPredictionResponse r false).status = 200 ∧
      (sendPredictionResponse r false).success = true ∧
      (sendPredictionResponse r false).note = some "Prediction saved locally only" ∧
      (sendPredictionResponse r false).result = (sendPredictionResponse r true).result) ∧
    (∀ model outcomes data, model ∈ validModels → outcomes model = some data →
      (serverPredictHandler model outcomes false).2.status = 500 ∧
      (serverPredictHandler model outcomes false).2.success = false) := by
  constructor
  · intro r
    exact ⟨rfl, rfl, rfl, rfl⟩
  · intro model outcomes data hm hd
    simp only [validModels, List.mem_cons, List.not_mem_nil, or_false] at hm
    rcases hm with rfl | rfl | rfl | rfl | rfl <;>
      simp [serverPredictHandler, validModels, modelServiceMap, List.lookup, hd, error500]

/-- C5, witness for the amended theorem. -/
theorem persistence_failure_nonfatal_only_in_send_witness :
    ((sendPredictionResponse
        { predictionResult := { prediction := "CKD", probability := mkRat 9 10, confidence := 90 }
          modelAccuracy := mkRat 99 100, model := "xgboost" } false).success = true) ∧
    ((serverPredictHandler "xgboost" allCkd false).2.status = 500) :=
  ⟨(persistence_failure_nonfatal_only_in_send.1 _).2.1,
   (persistence_failure_nonfatal_only_in_send.2 "xgboost" allCkd ckdData (by decide) rfl).1⟩

/-- C6: a model identifier outside `validModels` is rejected with a 400
client error whose message lists the valid identifiers, and no remote
request is issued for that request. -/
theorem unknown_model_client_error (model : String) (outcomes : String → CallOutcome)
    (saveOk : Bool) (h : model ∉ validModels) :
    (serverPredictHandler model outcomes saveOk).1 = [] ∧
    (serverPredictHandler model outcomes saveOk).2.status = 400 ∧
    (serverPredictHandler model outcomes saveOk).2.message =
      some "Invalid model. Choose from: xgboost, randomforest, svm, logistic, neuralnetwork" := by
  rw [serverPredictHandler, if_neg h]
  exact ⟨rfl, rfl, rfl⟩

/-- C6, witness: the unknown identifier `"foo"`. -/
theorem unknown_model_client_error_witness :
    ("foo" ∉ validModels) ∧
    ((serverPredictHandler "foo" allFail true).1 = [] ∧
     (serverPredictHandler "foo" allFail true).2.status = 400 ∧
     (serverPredictHandler "foo" allFail true).2.message =
       some "Invalid model. Choose from: xgboost, randomforest, svm, logistic, neuralnetwork") :=
  ⟨by decide, unknown_model_client_error "foo" allFail true (by decide)⟩

/-- C7: on the high-risk record (age 70, bp 150, creatinine 1.5, urea
50, glucose 130, specific gravity 1.005, albumin 3, sugar 2) every rule
fires, the accumulated raw risk score is 100, and the cap brings it to
95 before the per-model offset and the clamp are applied. -/
theorem highRisk_raw_100_capped_95 :
    rawRiskScore highRiskRecord = 100 ∧ cappedRiskScore highRiskRecord = 95 := by
  have hraw : rawRiskScore highRiskRecord = 100 := by
    norm_num [rawRiskScore, highRiskRecord, orDefaultQ]
  refine ⟨hraw, ?_⟩
  rw [cappedRiskScore, hraw]
  norm_num

/-- C8: on the neutral-defaults record the raw risk score is 0, and for
every registered model (hence every defined per-model offset) the
clamped probability stays ≤ 0.5, so the Local Risk Estimator's label is
negative (`"No CKD"`). -/
theorem neutral_raw_zero_label_negative (model : String) (h : model ∈ validModels) :
    rawRiskScore neutralRecord = 0 ∧
    (generateMockPrediction neutralRecord model).probability ≤ mkRat 1 2 ∧
    (generateMockPrediction neutralRecord model).prediction = "No CKD" := by
  have hraw : rawRiskScore neutralRecord = 0 := by
    norm_num [rawRiskScore, neutralRecord, orDefaultQ]
  have hcap : cappedRiskScore neutralRecord = 0 := by
    rw [cappedRiskScore, hraw]
    norm_num
  simp only [validModels, List.mem_cons, List.not_mem_nil, or_false] at h
  have hx : adjOf "xgboost" = mkRat 2 100 := by decide
  have hr : adjOf "randomforest" = mkRat 1 100 := by decide
  have hn : adjOf "neuralnetwork" = mkRat 15 1000 := by decide
  have hv : adjOf "svm" = 0 := by decide
  have hl : adjOf "logistic" = mkRat (-1) 100 := by decide
  rcases h with rfl | rfl | rfl | rfl | rfl <;>
    refine ⟨hraw, ?_, ?_⟩ <;>
    norm_num [generateMockPrediction, hcap, hx, hr, hn, hv, hl,
      Rat.mkRat_eq_divInt, Rat.divInt_eq_div]

/-- C8, witness. -/
theorem neutral_raw_zero_label_negative_witness :
    ("logistic" ∈ validModels) ∧
    (rawRiskScore neutralRecord = 0 ∧
     (generateMockPrediction neutralRecord "logistic").probability ≤ mkRat 1 2 ∧
     (generateMockPrediction neutralRecord "logistic").prediction = "No CKD") :=
  ⟨by decide, neutral_raw_zero_label_negative "logistic" (by decide)⟩

/-- C9: for every environment of call outcomes (and any registry), the
report `compareAllModels` returns is sorted by `accuracy` in
non-increasing order over all entries — failed entries included — and
hence so is its restriction to the successful entries. -/
theorem compareAll_sorted_by_accuracy (registry : List (String × String))
    (outcomes : String → CallOutcome) :
    (compareAllModelsGen registry outcomes).Pairwise (fun a b => b.accuracy ≤ a.accuracy) ∧
    ((compareAllModelsGen registry outcomes).filter
      (fun e => e.status == "success")).Pairwise (fun a b => b.accuracy ≤ a.accuracy) := by
  have total : ∀ a b : ComparisonEntry, cmpAcc a b = true ∨ cmpAcc b a = true := by
    intro a b
    simp only [cmpAcc, decide_eq_true_eq]
    exact le_total b.accuracy a.accuracy
  have htrans : ∀ a b c : ComparisonEntry,
      cmpAcc a b = true → cmpAcc b c = true → cmpAcc a c = true := by
    intro a b c hab hbc
    simp only [cmpAcc, decide_eq_true_eq] at hab hbc ⊢
    exact le_trans hbc hab
  have h := pairwise_sortBy cmpAcc total htrans (compareEntries registry outcomes)
  have h' : (compareAllModelsGen registry outcomes).Pairwise
      (fun a b => b.accuracy ≤ a.accuracy) := by
    refine List.Pairwise.imp ?_ h
    intro a b hab
    simpa only [cmpAcc, decide_eq_true_eq] using hab
  exact ⟨h', List.Pairwise.filter _ h'⟩

/-- C10: when a service responds successfully but its payload lacks the
`prediction` field, the label defaults to `'Unknown'`; since the risk
classification in `server.js` tests `prediction === "CKD"`, the
response reports `"LOW RISK: No CKD"` with the low-risk recommendation,
whatever the reported probability. -/
theorem malformed_payload_reports_low_risk (model : String) (outcomes : String → CallOutcome)
    (data : RemoteData) (hm : model ∈ validModels) (hd : outcomes model = some data)
    (hp : data.prediction = none) :
    (normalizeRemote data).prediction = "Unknown" ∧
    (serverPredictHandler model outcomes true).2.success = true ∧
    (serverPredictHandler model outcomes true).2.result = some "LOW RISK: No CKD" ∧
    (serverPredictHandler model outcomes true).2.recommendation =
      some "Low risk. Continue annual checkups." := by
  have hu : (normalizeRemote data).prediction = "Unknown" := by
    simp [normalizeRemote, hp, orDefaultStr]
  have hne : (normalizeRemote data).prediction ≠ "CKD" := by
    rw [hu]
    decide
  simp only [validModels, List.mem_cons, List.not_mem_nil, or_false] at hm
  rcases hm with rfl | rfl | rfl | rfl | rfl <;>
    refine ⟨hu, ?_, ?_, ?_⟩ <;>
    simp [serverPredictHandler, validModels, modelServiceMap, List.lookup, hd,
      responseOfResult, hne]

/-- C10, witness: a payload carrying probability 0.9 but no `prediction`
field is reported as low risk. -/
theorem malformed_payload_reports_low_risk_witness :
    ("xgboost" ∈ validModels) ∧ (allNoLabel "xgboost" = some noLabelData) ∧
    (noLabelData.prediction = none) ∧
    ((normalizeRemote noLabelData).prediction = "Unknown" ∧
     (serverPredictHandler "xgboost" allNoLabel true).2.success = true ∧
     (serverPredictHandler "xgboost" allNoLabel true).2.result = some "LOW RISK: No CKD" ∧
     (serverPredictHandler "xgboost" allNoLabel true).2.recommendation =
       some "Low risk. Continue annual checkups.") :=
  ⟨by decide, rfl, rfl,
   malformed_payload_reports_low_risk "xgboost" allNoLabel noLabelData (by decide) rfl rfl⟩

